import Mathlib

/-!
Verification of the SafeNode session-lock core (src/src-tauri/src/main.rs and
src/src-tauri/src/biometrics.rs), shallowly embedded in Lean.

Rust `Instant` timestamps are modelled as `Nat` seconds on a monotonic clock;
`Instant::elapsed().as_secs()` at time `now` for a stamp `last` is `now - last`
(truncated `Nat` subtraction, matching the saturating behaviour of `elapsed`
on a monotonic clock). Each Tauri command takes the session state and returns
`Except String (result × new state)`, modelling `Result<T, String>` plus the
mutation of the mutex-held fields. Tray-menu updates, window hiding and the
async spawn around the auto-lock `lock_vault` call are presentation-layer
effects with no session-state content and are not modelled.
-/

/-- The `AppState` struct of main.rs: the mutex-held session fields. -/
structure AppState where
  vault_data : Option String
  is_unlocked : Bool
  last_activity : Option Nat
  auto_lock_timer : Option Nat
  deriving DecidableEq, Repr

/-- The state installed by `main` via `.manage(AppState { ... })`:
vault_data None, is_unlocked false, last_activity None,
auto_lock_timer Some(300). -/
def initialState : AppState :=
  { vault_data := none
  , is_unlocked := false
  , last_activity := none
  , auto_lock_timer := some 300 }

/-- `unlock_vault` (main.rs lines 27-44): if the password equals
"demo-password", set is_unlocked := true and last_activity := Some(now) and
return Ok(true); otherwise return Ok(false) with no state change. -/
def unlock_vault (password : String) (now : Nat) (s : AppState) :
    Except String (Bool × AppState) :=
  if password = "demo-password" then
    .ok (true, { s with is_unlocked := true, last_activity := some now })
  else
    .ok (false, s)

/-- `lock_vault` (main.rs lines 47-58): set is_unlocked := false, clear
vault_data and last_activity, return Ok(()). -/
def lock_vault (s : AppState) : Except String (Unit × AppState) :=
  .ok ((), { s with is_unlocked := false, vault_data := none,
                    last_activity := none })

/-- `get_vault_status` (main.rs lines 61-63): return Ok(is_unlocked),
no state change. -/
def get_vault_status (s : AppState) : Except String (Bool × AppState) :=
  .ok (s.is_unlocked, s)

/-- `update_activity` (main.rs lines 66-70): unconditionally set
last_activity := Some(now) and return Ok(()).  Note: the source does NOT
test `is_unlocked` before writing. -/
def update_activity (now : Nat) (s : AppState) :
    Except String (Unit × AppState) :=
  .ok ((), { s with last_activity := some now })

/-- `set_auto_lock_timer` (main.rs lines 73-84): store the given optional
seconds value and return Ok(()). -/
def set_auto_lock_timer (seconds : Option Nat) (s : AppState) :
    Except String (Unit × AppState) :=
  .ok ((), { s with auto_lock_timer := seconds })

/-- `get_auto_lock_timer` (main.rs lines 87-89): return
Ok(auto_lock_timer), no state change. -/
def get_auto_lock_timer (s : AppState) :
    Except String (Option Nat × AppState) :=
  .ok (s.auto_lock_timer, s)

/-- One tick of the auto-lock monitor thread (main.rs lines 311-344):
skip when locked; skip when auto_lock_timer is None; when last_activity is
Some(last) and `last.elapsed().as_secs() >= timer`, perform the state change
of `lock_vault`; otherwise leave the state unchanged. -/
def monitor_tick (now : Nat) (s : AppState) : AppState :=
  if !s.is_unlocked then s
  else
    match s.auto_lock_timer with
    | none => s
    | some d =>
      match s.last_activity with
      | none => s
      | some last =>
        if now - last ≥ d then
          { s with is_unlocked := false, vault_data := none,
                   last_activity := none }
        else s

/-- The operations of the session core, for reasoning about call
sequences. Each timed operation carries the clock value at which it runs. -/
inductive Op where
  | unlock (password : String) (now : Nat)
  | lock
  | status
  | recordActivity (now : Nat)
  | setTimer (seconds : Option Nat)
  | getTimer
  | tick (now : Nat)
  deriving DecidableEq, Repr

/-- Extract the post-state of a command, keeping the old state on the
(unreachable for these commands) error branch. -/
def resultState {α : Type} (s : AppState) :
    Except String (α × AppState) → AppState
  | .ok (_, s') => s'
  | .error _ => s

/-- Apply one operation to the session state, discarding the returned
value. -/
def applyOp (op : Op) (s : AppState) : AppState :=
  match op with
  | .unlock pw now => resultState s (unlock_vault pw now s)
  | .lock => resultState s (lock_vault s)
  | .status => resultState s (get_vault_status s)
  | .recordActivity now => resultState s (update_activity now s)
  | .setTimer seconds => resultState s (set_auto_lock_timer seconds s)
  | .getTimer => resultState s (get_auto_lock_timer s)
  | .tick now => monitor_tick now s

/-- Run a sequence of operations from the initial state. -/
def runOps (ops : List Op) : AppState :=
  ops.foldl (fun s op => applyOp op s) initialState

/-- C8: at process start the session state is locked, with no vault
payload, no recorded activity, and an auto-lock timeout of 300 seconds
(5 minutes). -/
theorem C8_initial_state :
    initialState.is_unlocked = false ∧
    initialState.vault_data = none ∧
    initialState.last_activity = none ∧
    initialState.auto_lock_timer = some (5 * 60) :=
  ⟨rfl, rfl, rfl, rfl⟩

/-- C3: unlock_vault with the expected secret returns Ok(true), sets
is_unlocked := true and last_activity := Some(now), and leaves vault_data
and auto_lock_timer unchanged; with any other password it returns Ok(false)
and changes no state; in both cases the result is the Ok branch, never an
error. -/
theorem C3_unlock_vault (password : String) (now : Nat) (s : AppState) :
    (password = "demo-password" →
      unlock_vault password now s =
        .ok (true, { vault_data := s.vault_data, is_unlocked := true,
                     last_activity := some now,
                     auto_lock_timer := s.auto_lock_timer })) ∧
    (password ≠ "demo-password" →
      unlock_vault password now s = .ok (false, s)) := by
  constructor
  · intro h
    simp [unlock_vault, h]
  · intro h
    simp [unlock_vault, h]

/-- Witness for C3 at concrete inputs: the demo password unlocks from the
initial state at time 7, and the password "x" leaves it unchanged. -/
theorem C3_unlock_vault_witness :
    unlock_vault "demo-password" 7 initialState =
      .ok (true, { vault_data := none, is_unlocked := true,
                   last_activity := some 7, auto_lock_timer := some 300 }) ∧
    unlock_vault "x" 7 initialState = .ok (false, initialState) :=
  ⟨(C3_unlock_vault "demo-password" 7 initialState).1 rfl,
   (C3_unlock_vault "x" 7 initialState).2 (by decide)⟩

/-- C4: lock_vault always returns Ok, sets is_unlocked := false, clears
vault_data and last_activity, keeps auto_lock_timer; applying it again to
its own result gives the same state, and get_vault_status on that state
returns Ok(false). -/
theorem C4_lock_vault (s : AppState) :
    lock_vault s =
      .ok ((), { vault_data := none, is_unlocked := false,
                 last_activity := none,
                 auto_lock_timer := s.auto_lock_timer }) ∧
    lock_vault { vault_data := none, is_unlocked := false,
                 last_activity := none,
                 auto_lock_timer := s.auto_lock_timer } =
      .ok ((), { vault_data := none, is_unlocked := false,
                 last_activity := none,
                 auto_lock_timer := s.auto_lock_timer }) ∧
    get_vault_status { vault_data := none, is_unlocked := false,
                       last_activity := none,
                       auto_lock_timer := s.auto_lock_timer } =
      .ok (false, { vault_data := none, is_unlocked := false,
                    last_activity := none,
                    auto_lock_timer := s.auto_lock_timer }) :=
  ⟨rfl, rfl, rfl⟩

/-- C10: every session-state command returns the Ok branch on every input
and every state; the Err branch of these six commands is unreachable. -/
theorem C10_no_errors (password : String) (now : Nat)
    (seconds : Option Nat) (s : AppState) :
    (∃ r, unlock_vault password now s = .ok r) ∧
    (∃ r, lock_vault s = .ok r) ∧
    (∃ r, get_vault_status s = .ok r) ∧
    (∃ r, update_activity now s = .ok r) ∧
    (∃ r, set_auto_lock_timer seconds s = .ok r) ∧
    (∃ r, get_auto_lock_timer s = .ok r) := by
  refine ⟨?_, ⟨_, rfl⟩, ⟨_, rfl⟩, ⟨_, rfl⟩, ⟨_, rfl⟩, ⟨_, rfl⟩⟩
  by_cases h : password = "demo-password"
  · exact ⟨_, (C3_unlock_vault password now s).1 h⟩
  · exact ⟨_, (C3_unlock_vault password now s).2 h⟩

/-- C5: one monitor tick performs the lock_vault state change exactly when
the session is unlocked, auto_lock_timer is Some(d), last_activity is
Some(last), and the elapsed idle time now - last is at least d; when the
session is locked, or the timer is None, or last_activity is None, or the
idle time is below d, the tick leaves the state unchanged. -/
theorem C5_monitor_tick (now : Nat) (s : AppState) :
    (∀ d last, s.is_unlocked = true → s.auto_lock_timer = some d →
      s.last_activity = some last → d ≤ now - last →
      monitor_tick now s =
        { vault_data := none, is_unlocked := false, last_activity := none,
          auto_lock_timer := some d }) ∧
    (s.is_unlocked = false → monitor_tick now s = s) ∧
    (s.auto_lock_timer = none → monitor_tick now s = s) ∧
    (s.last_activity = none → monitor_tick now s = s) ∧
    (∀ d last, s.auto_lock_timer = some d → s.last_activity = some last →
      now - last < d → monitor_tick now s = s) := by
  refine ⟨?_, ?_, ?_, ?_, ?_⟩
  · intro d last hu ht hl hd
    simp [monitor_tick, hu, ht, hl, hd]
  · intro hu
    simp [monitor_tick, hu]
  · intro ht
    by_cases hu : s.is_unlocked <;> simp [monitor_tick, hu, ht]
  · intro hl
    by_cases hu : s.is_unlocked <;> simp [monitor_tick, hu, hl]
    cases h : s.auto_lock_timer <;> simp [hl]
  · intro d last ht hl hd
    by_cases hu : s.is_unlocked <;>
      simp [monitor_tick, hu, ht, hl, Nat.not_le.mpr hd]

/-- Witness for C5 at concrete states: with timer 300 and last activity at
time 0, a tick at time 301 locks, a tick at time 100 changes nothing, and a
tick on a locked state changes nothing. -/
theorem C5_monitor_tick_witness :
    monitor_tick 301 { vault_data := none, is_unlocked := true,
                       last_activity := some 0,
                       auto_lock_timer := some 300 } =
      { vault_data := none, is_unlocked := false, last_activity := none,
        auto_lock_timer := some 300 } ∧
    monitor_tick 100 { vault_data := none, is_unlocked := true,
                       last_activity := some 0,
                       auto_lock_timer := some 300 } =
      { vault_data := none, is_unlocked := true, last_activity := some 0,
        auto_lock_timer := some 300 } ∧
    monitor_tick 301 initialState = initialState :=
  ⟨(C5_monitor_tick 301 _).1 300 0 rfl rfl rfl (by decide),
   (C5_monitor_tick 100 _).2.2.2.2 300 0 rfl rfl (by decide),
   (C5_monitor_tick 301 initialState).2.1 rfl⟩

/-- A monitor tick either leaves the state unchanged or performs exactly
the lock_vault state change. -/
theorem monitor_tick_cases (now : Nat) (s : AppState) :
    monitor_tick now s = s ∨
    monitor_tick now s =
      { s with vault_data := none, is_unlocked := false,
               last_activity := none } := by
  unfold monitor_tick
  split
  · exact Or.inl rfl
  · split
    · exact Or.inl rfl
    · split
      · exact Or.inl rfl
      · split
        · exact Or.inr rfl
        · exact Or.inl rfl

/-- C1 as stated is false: from the initial (locked) state, the single
operation record_activity (update_activity) leaves the session locked yet
sets last_activity to Some, violating
last_activity.is_some() implies unlocked. -/
theorem C1_counterexample :
    (runOps [Op.recordActivity 0]).last_activity.isSome = true ∧
    (runOps [Op.recordActivity 0]).is_unlocked = false :=
  ⟨rfl, rfl⟩

/-- The restriction under which the C1 invariant does hold: record_activity
may only be invoked while the session is unlocked; every other operation is
unrestricted. -/
def activityGuard : Op → AppState → Prop
  | Op.recordActivity _, s => s.is_unlocked = true
  | _, _ => True

/-- States reachable from the initial state by sequences obeying
activityGuard. -/
inductive GuardedReach : AppState → Prop where
  | init : GuardedReach initialState
  | step (op : Op) (s : AppState) : GuardedReach s → activityGuard op s →
      GuardedReach (applyOp op s)

/-- One guarded operation preserves the last_activity invariant. -/
theorem applyOp_activity_inv (op : Op) (s : AppState)
    (hInv : s.last_activity.isSome = false ∨ s.is_unlocked = true)
    (hG : activityGuard op s) :
    (applyOp op s).last_activity.isSome = false ∨
      (applyOp op s).is_unlocked = true := by
  cases op with
  | unlock pw now =>
      by_cases h : pw = "demo-password"
      · simp [applyOp, unlock_vault, resultState, h]
      · simpa [applyOp, unlock_vault, resultState, h] using hInv
  | lock => simp [applyOp, lock_vault, resultState]
  | status => simpa [applyOp, get_vault_status, resultState] using hInv
  | recordActivity now =>
      simp only [applyOp, update_activity, resultState]
      exact Or.inr hG
  | setTimer seconds =>
      simpa [applyOp, set_auto_lock_timer, resultState] using hInv
  | getTimer => simpa [applyOp, get_auto_lock_timer, resultState] using hInv
  | tick now =>
      rcases monitor_tick_cases now s with h | h <;>
        simp only [applyOp, h]
      · exact hInv
      · simp

/-- C1 amended: for every sequence of the core operations starting from the
initial state in which record_activity is only invoked while the session is
unlocked, the invariant (last_activity.is_some() implies unlocked == true)
holds after every operation. -/
theorem C1_amended_guarded_invariant (s : AppState) (h : GuardedReach s) :
    s.last_activity.isSome = false ∨ s.is_unlocked = true := by
  induction h with
  | init => exact Or.inl rfl
  | step op t ht hg ih => exact applyOp_activity_inv op t ih hg

/-- Witness for the amended C1: a concrete guarded sequence (unlock with
the demo password at time 3, then record activity at time 4) satisfies the
invariant. -/
theorem C1_amended_witness :
    (applyOp (Op.recordActivity 4)
      (applyOp (Op.unlock "demo-password" 3)
        initialState)).last_activity.isSome = false ∨
    (applyOp (Op.recordActivity 4)
      (applyOp (Op.unlock "demo-password" 3)
        initialState)).is_unlocked = true :=
  C1_amended_guarded_invariant _
    (GuardedReach.step (Op.recordActivity 4) _
      (GuardedReach.step (Op.unlock "demo-password" 3) initialState
        GuardedReach.init trivial)
      (show (applyOp (Op.unlock "demo-password" 3)
          initialState).is_unlocked = true by decide))

/-- C2 as stated is false: from the initial (locked) state, update_activity
does change the session state — it writes last_activity := Some(now)
without testing is_unlocked. -/
theorem C2_counterexample :
    initialState.is_unlocked = false ∧
    resultState initialState (update_activity 1 initialState) ≠
      initialState ∧
    (resultState initialState
      (update_activity 1 initialState)).last_activity = some 1 :=
  ⟨rfl, by decide, rfl⟩

/-- C2 amended: while the session is locked, update_activity still sets
last_activity := Some(now), but it leaves is_unlocked, vault_data and
auto_lock_timer unchanged, and get_vault_status afterwards still returns
Ok(false). -/
theorem C2_amended_update_activity (now : Nat) (s : AppState)
    (h : s.is_unlocked = false) :
    update_activity now s =
      .ok ((), { vault_data := s.vault_data, is_unlocked := false,
                 last_activity := some now,
                 auto_lock_timer := s.auto_lock_timer }) ∧
    get_vault_status { vault_data := s.vault_data, is_unlocked := false,
                       last_activity := some now,
                       auto_lock_timer := s.auto_lock_timer } =
      .ok (false, { vault_data := s.vault_data, is_unlocked := false,
                    last_activity := some now,
                    auto_lock_timer := s.auto_lock_timer }) := by
  obtain ⟨vd, iu, la, alt⟩ := s
  subst h
  exact ⟨rfl, rfl⟩

/-- Witness for the amended C2 at the initial state and time 3. -/
theorem C2_amended_witness :
    update_activity 3 initialState =
      .ok ((), { vault_data := none, is_unlocked := false,
                 last_activity := some 3, auto_lock_timer := some 300 }) ∧
    get_vault_status { vault_data := none, is_unlocked := false,
                       last_activity := some 3,
                       auto_lock_timer := some 300 } =
      .ok (false, { vault_data := none, is_unlocked := false,
                    last_activity := some 3,
                    auto_lock_timer := some 300 }) :=
  C2_amended_update_activity 3 initialState rfl

/-- Every operation either preserves vault_data or clears it to none. -/
theorem applyOp_vault_data (op : Op) (s : AppState) :
    (applyOp op s).vault_data = s.vault_data ∨
    (applyOp op s).vault_data = none := by
  cases op with
  | unlock pw now =>
      by_cases h : pw = "demo-password" <;>
        simp [applyOp, unlock_vault, resultState, h]
  | lock => simp [applyOp, lock_vault, resultState]
  | status => simp [applyOp, get_vault_status, resultState]
  | recordActivity now => simp [applyOp, update_activity, resultState]
  | setTimer seconds => simp [applyOp, set_auto_lock_timer, resultState]
  | getTimer => simp [applyOp, get_auto_lock_timer, resultState]
  | tick now =>
      rcases monitor_tick_cases now s with h | h <;> simp [applyOp, h]

/-- Folding any operation list over a state with empty vault_data keeps
vault_data empty. -/
theorem foldl_vault_data_none (ops : List Op) (s : AppState)
    (h : s.vault_data = none) :
    (ops.foldl (fun t op => applyOp op t) s).vault_data = none := by
  induction ops generalizing s with
  | nil => simpa using h
  | cons op rest ih =>
      simp only [List.foldl_cons]
      apply ih
      rcases applyOp_vault_data op s with h' | h'
      · rw [h', h]
      · exact h'

/-- C9: no operation ever populates vault_data — after every sequence of
core operations it is still None, and the invariant
(vault_data.is_some() implies unlocked) holds vacuously. -/
theorem C9_vault_data_always_none (ops : List Op) :
    (runOps ops).vault_data = none ∧
    ((runOps ops).vault_data.isSome = false ∨
      (runOps ops).is_unlocked = true) := by
  have h : (runOps ops).vault_data = none :=
    foldl_vault_data_none ops initialState rfl
  exact ⟨h, Or.inl (by rw [h]; rfl)⟩

/-- `BiometricType` (biometrics.rs lines 35-39). -/
inductive BiometricType where
  | fingerprint
  | face
  | unknown
  deriving DecidableEq, Repr

/-- `BiometricAvailability` (biometrics.rs lines 27-31). -/
structure BiometricAvailability where
  available : Bool
  biometric_type : BiometricType
  enrolled : Bool
  deriving DecidableEq, Repr

/-- `BiometricResult` (biometrics.rs lines 10-14). -/
structure BiometricResult where
  success : Bool
  error : Option String
  method : Option String
  deriving DecidableEq, Repr

/-- The compile-time platform selection of `get_biometric_authenticator`
(biometrics.rs lines 145-180): one authenticator per target_os, plus the
fallback for any other platform. -/
inductive TargetOs where
  | macos
  | windows
  | linux
  | unsupported
  deriving DecidableEq, Repr

/-- The `is_available` implementations (biometrics.rs lines 50-60, 86-96,
121-130, 166-172): macOS and Windows return placeholder availability;
Linux and the fallback return Ok with available = false. -/
def authenticator_is_available (os : TargetOs) :
    Except String BiometricAvailability :=
  match os with
  | .macos => .ok { available := true, biometric_type := .fingerprint,
                    enrolled := true }
  | .windows => .ok { available := true, biometric_type := .fingerprint,
                      enrolled := true }
  | .linux => .ok { available := false, biometric_type := .unknown,
                    enrolled := false }
  | .unsupported => .ok { available := false, biometric_type := .unknown,
                          enrolled := false }

/-- The `authenticate` implementations (biometrics.rs lines 62-75, 98-110,
132-140, 174-176): macOS and Windows return placeholder success; Linux
returns Err about the missing fprintd daemon; the fallback returns Err that
biometrics are unavailable on the platform. -/
def authenticator_authenticate (os : TargetOs) (prompt : String) :
    Except String BiometricResult :=
  match os, prompt with
  | .macos, _ => .ok { success := true, error := none,
                       method := some "Touch ID or Face ID" }
  | .windows, _ => .ok { success := true, error := none,
                         method := some "Windows Hello" }
  | .linux, _ => .error "Biometric authentication requires fprintd. Install fprintd to enable fingerprint authentication."
  | .unsupported, _ => .error "Biometric authentication not available on this platform"

/-- The JSON object built by `check_biometric_available` (biometrics.rs
lines 187-195), with the type field serialized to its string label. -/
structure ProbeResponse where
  available : Bool
  biometric_type_label : String
  enrolled : Bool
  deriving DecidableEq, Repr

/-- String label of a BiometricType, as in the match of
`check_biometric_available` (biometrics.rs lines 189-193). -/
def biometricTypeLabel : BiometricType → String
  | .fingerprint => "fingerprint"
  | .face => "face"
  | .unknown => "unknown"

/-- `check_biometric_available` (biometrics.rs lines 183-196): query the
platform authenticator, propagate its error with `?`, and otherwise return
the availability as a JSON value. -/
def check_biometric_available (os : TargetOs) :
    Except String ProbeResponse :=
  match authenticator_is_available os with
  | .error e => .error e
  | .ok a =>
    .ok { available := a.available
        , biometric_type_label := biometricTypeLabel a.biometric_type
        , enrolled := a.enrolled }

/-- The JSON object built by `authenticate_biometric` (biometrics.rs lines
203-215): the success branch carries the method, the failure branch carries
an error string defaulted to "Authentication failed". -/
structure AuthResponse where
  success : Bool
  method : Option String
  error : Option String
  prompt : String
  deriving DecidableEq, Repr

/-- `authenticate_biometric` (biometrics.rs lines 199-216): query the
platform authenticator, propagate its error with `?`, then build the
success or failure JSON value from the Ok result. -/
def authenticate_biometric (os : TargetOs) (prompt : String) :
    Except String AuthResponse :=
  match authenticator_authenticate os prompt with
  | .error e => .error e
  | .ok r =>
    if r.success then
      .ok { success := true, method := r.method, error := none,
            prompt := prompt }
    else
      .ok { success := false, method := none,
            error := some (r.error.getD "Authentication failed"),
            prompt := prompt }

/-- C7: on the platforms without biometric support (Linux and the
fallback), check_biometric_available returns the Ok branch with
available = false, enrolled = false and type label "unknown"; it never
takes the error branch merely because the hardware is unsupported. -/
theorem C7_probe_unsupported :
    check_biometric_available .linux =
      .ok { available := false, biometric_type_label := "unknown",
            enrolled := false } ∧
    check_biometric_available .unsupported =
      .ok { available := false, biometric_type_label := "unknown",
            enrolled := false } :=
  ⟨rfl, rfl⟩

/-- C6 as stated is false: on Linux, where the required fprintd daemon is
missing, authenticate_biometric takes the error branch (the `?` operator
propagates the authenticator error) instead of returning a success = false
result value. -/
theorem C6_counterexample :
    (authenticate_biometric .linux "Unlock SafeNode").isOk = false ∧
    authenticate_biometric .linux "Unlock SafeNode" =
      .error "Biometric authentication requires fprintd. Install fprintd to enable fingerprint authentication." :=
  ⟨rfl, rfl⟩

/-- C6 amended: on a platform without biometric support, the platform
authenticator returns Err and authenticate_biometric propagates that raised
infrastructure error — a non-empty error string in the Err branch — to the
caller, rather than returning a BiometricAuthResult with success = false. -/
theorem C6_amended_unsupported_error (prompt : String) :
    authenticate_biometric .linux prompt =
      .error "Biometric authentication requires fprintd. Install fprintd to enable fingerprint authentication." ∧
    authenticate_biometric .unsupported prompt =
      .error "Biometric authentication not available on this platform" ∧
    ("Biometric authentication requires fprintd. Install fprintd to enable fingerprint authentication." : String) ≠ "" ∧
    ("Biometric authentication not available on this platform" : String) ≠ "" := by
  refine ⟨rfl, rfl, by decide, by decide⟩
